import Mathlib

/-!
Verification of the canvas synchronization layer of the Text Labs editor
(class `CanvasRenderer`, frontend JavaScript).

The embedding below is a shallow model of the current revision of
`CanvasRenderer` (referred to here as the current source), together with the
earlier revision's `insertElement` (modelled as `legacyInsertElement`).
DOM-only display effects (placeholder visibility, element-count label,
console logging, CSS transforms) are not part of the model; the model keeps
the fields that carry the synchronization state: the local element list
(`elements`), the readiness flag (`isLoaded`), and the pending message queue
(`pendingMessages`).  In addition the state carries three ghost logs that
record externally observable effects in order: `dispatched` (messages for
which `iframe.contentWindow.postMessage` was invoked), `sent` (every
invocation of `sendCommand`), and `released` (element ids for which the
backend release DELETE request was issued by `notifyElementRemoved`).
Network requests and browser callbacks are modelled by explicit outcome
parameters (`FetchOutcome`, `LoadEvent`) since the code only branches on
success/failure of those operations.
-/

/-- A JavaScript value as it appears in command parameter objects. -/
inductive JsValue where
  | str (s : String)
  | num (n : Nat)
  | bool (b : Bool)
  | null
  | undef
deriving DecidableEq, Repr

/-- A command parameter object, as an association list of fields. -/
abbrev Params := List (String × JsValue)

/-- A postMessage envelope: `{ action, params, source: 'text-labs' }`. -/
structure Message where
  action : String
  params : Params
  source : String
deriving DecidableEq, Repr

/-- A grid position: `gridRow` and `gridColumn` strings such as "4/18". -/
structure GridPos where
  gridRow : String
  gridColumn : String
deriving DecidableEq, Repr

/-- A locally tracked canvas element (entry of `this.elements`).  The
`type` tag is `none` for text boxes and `some "chart"` etc. otherwise. -/
structure Element where
  id : String
  type : Option String
  html : String
  position : GridPos
deriving DecidableEq, Repr

/-- The synchronization state of one `CanvasRenderer` instance, plus the
ghost logs described in the module header. -/
structure RendererState where
  elements : List Element
  isLoaded : Bool
  pendingMessages : List Message
  dispatched : List Message
  sent : List Message
  released : List String
deriving DecidableEq, Repr

/-- The message built by `sendCommand` from an (action, params) pair. -/
def mkMsg (c : String × Params) : Message :=
  { action := c.1, params := c.2, source := "text-labs" }

/-- `sendCommand(action, params)`: build the envelope with the
`'text-labs'` source marker; if the surface is not loaded, queue it and
return; otherwise attempt `postMessage` (failures are caught and only
logged, so the attempt is recorded unconditionally). -/
def sendCommand (action : String) (params : Params) (st : RendererState) :
    RendererState :=
  let message : Message := { action := action, params := params, source := "text-labs" }
  if st.isLoaded = false then
    { st with sent := st.sent ++ [message],
              pendingMessages := st.pendingMessages ++ [message] }
  else
    { st with sent := st.sent ++ [message],
              dispatched := st.dispatched ++ [message] }

/-- One iteration of the `while (this.pendingMessages.length > 0)` loop of
`processPendingMessages`: shift the head of the queue and re-send it via
`sendCommand(message.action, message.params)`.  The loop is modelled with
explicit fuel; at every call site in the source the loop runs with
`isLoaded` already true, in which case fuel equal to the initial queue
length drains the queue exactly. -/
def processPendingGo : Nat → RendererState → RendererState
  | 0, st => st
  | fuel + 1, st =>
    match st.pendingMessages with
    | [] => st
    | m :: rest =>
      processPendingGo fuel
        (sendCommand m.action m.params { st with pendingMessages := rest })

/-- `processPendingMessages()`: drain the pending queue through
`sendCommand`. -/
def processPendingMessages (st : RendererState) : RendererState :=
  processPendingGo st.pendingMessages.length st

/-- The readiness transition as it appears at the `iframe.onload` handler
and at the `viewerReady` inbound message: `this.isLoaded = true` followed
by `this.processPendingMessages()`. -/
def markReady (st : RendererState) : RendererState :=
  processPendingMessages { st with isLoaded := true }

/-- Iterated `sendCommand` over a list of (action, params) pairs. -/
def sendAll : List (String × Params) → RendererState → RendererState
  | [], st => st
  | c :: rest, st => sendAll rest (sendCommand c.1 c.2 st)

/-- The message rebuilt when a queued message is re-sent by
`processPendingMessages` (the source marker is re-attached). -/
def resend (m : Message) : Message :=
  { action := m.action, params := m.params, source := "text-labs" }

/-- Which of the three `loadPresentation` callbacks fires first for a given
load: the iframe `onload` event, the 5000 ms timeout, or `onerror`. -/
inductive LoadEvent where
  | loaded
  | timeout
  | loadError
deriving DecidableEq, Repr

/-- Whether the `loadPresentation` promise resolved or rejected. -/
inductive LoadOutcome where
  | resolved
  | rejected
deriving DecidableEq, Repr

/-- `loadPresentation(viewerUrl)`: on `onload`, set `isLoaded`, process the
pending queue and resolve; on timeout, set `isLoaded` and resolve
("continuing anyway") without touching the queue; on `onerror`, reject. -/
def loadPresentation (ev : LoadEvent) (st : RendererState) :
    LoadOutcome × RendererState :=
  match ev with
  | LoadEvent.loaded => (LoadOutcome.resolved, markReady st)
  | LoadEvent.timeout => (LoadOutcome.resolved, { st with isLoaded := true })
  | LoadEvent.loadError => (LoadOutcome.rejected, st)

/-- Outcome of the `fetch('/api/position/auto', ...)` request issued by
`getAutoPosition`: a 2xx response with its parsed JSON body, a non-2xx
status (which the code turns into a thrown error), or a network error. -/
inductive FetchOutcome where
  | success (grid_row : String) (grid_column : String)
  | httpError (status : Nat)
  | networkError
deriving DecidableEq, Repr

/-- `getAutoPosition(elementId, elementType, width, height)`: return the
allocator's position on success; on any caught error fall back to the
deterministic default `4/(4+height)` and `2/(2+width)`.  The element id,
element type and session id are carried in the request body and do not
influence the fallback. -/
def getAutoPosition (outcome : FetchOutcome) (elementId elementType : String)
    (width height : Nat) : GridPos :=
  match outcome with
  | FetchOutcome.success r c => { gridRow := r, gridColumn := c }
  | FetchOutcome.httpError _ =>
    { gridRow := "4/" ++ Nat.repr (4 + height),
      gridColumn := "2/" ++ Nat.repr (2 + width) }
  | FetchOutcome.networkError =>
    { gridRow := "4/" ++ Nat.repr (4 + height),
      gridColumn := "2/" ++ Nat.repr (2 + width) }

/-- `notifyElementRemoved(elementId)`: fire-and-forget DELETE request to
the backend occupancy tracker; both success and failure are only logged,
so the model records the attempt. -/
def notifyElementRemoved (elementId : String) (st : RendererState) :
    RendererState :=
  { st with released := st.released ++ [elementId] }

/-- The `options` object accepted by the current `insertElement`. -/
structure InsertOptions where
  elementId : Option String
  useAutoPosition : Bool
  positionWidth : Option Nat
  positionHeight : Option Nat
  elementType : Option String
deriving DecidableEq, Repr

/-- JavaScript `v || dflt` on an optional string: absent and the empty
string are falsy. -/
def jsOrStr (v : Option String) (dflt : String) : String :=
  match v with
  | some s => if s = "" then dflt else s
  | none => dflt

/-- JavaScript truthiness of an optional number: absent and 0 are falsy. -/
def jsTruthyNum : Option Nat → Bool
  | some n => decide (n ≠ 0)
  | none => false

/-- A possibly-undefined numeric option as it is written into a parameter
object. -/
def optNumVal : Option Nat → JsValue
  | some n => JsValue.num n
  | none => JsValue.undef

/-- The current revision's `insertElement(html, position, options)`:
resolve the element id (`options.elementId || 'el_' + Date.now()`), use the
explicit position if given, else the default `4/18`, `2/32`; when
`options.useAutoPosition === true` and both footprint numbers are truthy,
replace it by the allocator's answer; then send one `insertTextBox`
command (note `skipAutoSize: true` unconditionally) and append the element
locally. -/
def insertElement (fetch : FetchOutcome) (now : Nat) (html : String)
    (position : Option GridPos) (options : InsertOptions)
    (st : RendererState) : String × RendererState :=
  let defaultPosition : GridPos := { gridRow := "4/18", gridColumn := "2/32" }
  let elementId : String := jsOrStr options.elementId ("el_" ++ Nat.repr now)
  let basePosition : GridPos :=
    match position with
    | some p => p
    | none => defaultPosition
  let finalPosition : GridPos :=
    if options.useAutoPosition && jsTruthyNum options.positionWidth
        && jsTruthyNum options.positionHeight then
      getAutoPosition fetch elementId (jsOrStr options.elementType "TEXT_BOX")
        (options.positionWidth.getD 0) (options.positionHeight.getD 0)
    else basePosition
  let st1 := sendCommand "insertTextBox"
    [("elementId", JsValue.str elementId),
     ("slideIndex", JsValue.num 0),
     ("content", JsValue.str html),
     ("gridRow", JsValue.str finalPosition.gridRow),
     ("gridColumn", JsValue.str finalPosition.gridColumn),
     ("positionWidth", optNumVal options.positionWidth),
     ("positionHeight", optNumVal options.positionHeight),
     ("skipAutoSize", JsValue.bool true),
     ("draggable", JsValue.bool true),
     ("resizable", JsValue.bool true)] st
  let st2 := { st1 with elements := st1.elements ++
    [{ id := elementId, type := none, html := html, position := finalPosition }] }
  (elementId, st2)

/-- The earlier revision's `insertElement(html, position)`: the id is
always generated, field-wise `position?.gridRow || default` resolution, and
`skipAutoSize: !!position` (set exactly when an explicit position object
was passed). -/
def legacyInsertElement (now : Nat) (html : String) (position : Option GridPos)
    (st : RendererState) : String × RendererState :=
  let defaultPosition : GridPos := { gridRow := "4/18", gridColumn := "2/32" }
  let elementId : String := "el_" ++ Nat.repr now
  let gridRow : String :=
    match position with
    | some p => if p.gridRow = "" then defaultPosition.gridRow else p.gridRow
    | none => defaultPosition.gridRow
  let gridColumn : String :=
    match position with
    | some p => if p.gridColumn = "" then defaultPosition.gridColumn else p.gridColumn
    | none => defaultPosition.gridColumn
  let st1 := sendCommand "insertTextBox"
    [("elementId", JsValue.str elementId),
     ("slideIndex", JsValue.num 0),
     ("content", JsValue.str html),
     ("gridRow", JsValue.str gridRow),
     ("gridColumn", JsValue.str gridColumn),
     ("skipAutoSize", JsValue.bool position.isSome),
     ("draggable", JsValue.bool true),
     ("resizable", JsValue.bool true)] st
  let st2 := { st1 with elements := st1.elements ++
    [{ id := elementId, type := none, html := html,
       position := position.getD defaultPosition }] }
  (elementId, st2)

/-- In-place mutation of the first element found by
`this.elements.find(e => e.id === elementId)`. -/
def updateFirstContent (elementId html : String) : List Element → List Element
  | [] => []
  | e :: rest =>
    if e.id = elementId then { e with html := html } :: rest
    else e :: updateFirstContent elementId html rest

/-- `updateElementContent(elementId, html)`: send one
`updateTextBoxContent` command, then update the found element (if any). -/
def updateElementContent (elementId html : String) (st : RendererState) :
    RendererState :=
  let st1 := sendCommand "updateTextBoxContent"
    [("elementId", JsValue.str elementId), ("content", JsValue.str html)] st
  { st1 with elements := updateFirstContent elementId html st1.elements }

/-- `deleteElement(elementId)`: send one `deleteElement` command, filter
the element out of local tracking, and notify the backend occupancy
tracker. -/
def deleteElement (elementId : String) (st : RendererState) : RendererState :=
  let st1 := sendCommand "deleteElement" [("elementId", JsValue.str elementId)] st
  let st2 := { st1 with elements := st1.elements.filter (fun e => e.id != elementId) }
  notifyElementRemoved elementId st2

/-- `getElements()`: returns `[...this.elements]`; in the pure model the
defensive copy is the list itself. -/
def getElements (st : RendererState) : List Element :=
  st.elements

/-- The `event.data` of an inbound window message, when it is present. -/
structure InboundData where
  source : Option String
  action : Option String
  success : Option Bool
  elementId : Option String
  error : Option String
  position : Option GridPos
deriving DecidableEq, Repr

/-- The window `message` listener installed by `setupMessageListener`:
absent data and self-sent echoes (source `'text-labs'`) are ignored; the
`insertTextBox`, `insertChart`, `deleteElement`, `elementSelected` and
`elementMoved` cases only log; the `viewerReady` case sets `isLoaded` and
processes the pending queue; unknown actions are ignored. -/
def handleInboundMessage (data : Option InboundData) (st : RendererState) :
    RendererState :=
  match data with
  | none => st
  | some d =>
    if d.source = some "text-labs" then st
    else
      match d.action with
      | some "insertTextBox" => st
      | some "insertChart" => st
      | some "deleteElement" => st
      | some "elementSelected" => st
      | some "elementMoved" => st
      | some "viewerReady" => processPendingMessages { st with isLoaded := true }
      | _ => st

/-- JavaScript `String.prototype.includes` as used by
`_extractBodyContent`. -/
def strContains (s : String) (pat : String) : Bool :=
  decide (pat.data <:+: s.data)

/-- The document-level marker test of `_extractBodyContent`:
`html.includes('<!DOCTYPE') || html.includes('<html')`. -/
def looksLikeDocument (html : String) : Bool :=
  strContains html "<!DOCTYPE" || strContains html "<html"

/-- JavaScript `Array.prototype.join('\n')`. -/
def joinLines : List String → String
  | [] => ""
  | [s] => s
  | s :: t :: rest => s ++ "\n" ++ joinLines (t :: rest)

/-- The outcome of `new DOMParser().parseFromString(html, 'text/html')` as
used by `_extractBodyContent`: the `outerHTML` of each head `<script>`
element in document order, and `doc.body.innerHTML`. -/
structure ParsedDocument where
  headScripts : List String
  bodyInner : String
deriving DecidableEq, Repr

/-- `_extractBodyContent(html)`: if the document marker is present, parse
and reconstruct head script tags joined by newlines followed by the body's
inner markup; otherwise return the input unchanged.  The browser's HTML
parser is passed in as `parse`. -/
def extractBodyContent (parse : String → ParsedDocument) (html : String) :
    String :=
  if looksLikeDocument html then
    joinLines (parse html).headScripts ++ "\n" ++ (parse html).bodyInner
  else html

/-- A canonical complete HTML document around head scripts and a body, of
the shape the backend produces when it wraps generated markup for iframe
srcdoc use. -/
def docString (scripts : List String) (bodyInner : String) : String :=
  "<!DOCTYPE html><html><head>" ++ String.join scripts ++ "</head><body>"
    ++ bodyInner ++ "</body></html>"

/-- The wrapper-tag openers that must be absent from an extracted
fragment. -/
def wrapperPats : List String :=
  ["<html", "<head", "<body"]

/-! ## Helper lemmas about the command channel -/

theorem sendCommand_sent (a : String) (p : Params) (st : RendererState) :
    (sendCommand a p st).sent =
      st.sent ++ [{ action := a, params := p, source := "text-labs" }] := by
  unfold sendCommand
  split <;> rfl

theorem sendCommand_elements (a : String) (p : Params) (st : RendererState) :
    (sendCommand a p st).elements = st.elements := by
  unfold sendCommand
  split <;> rfl

theorem sendCommand_released (a : String) (p : Params) (st : RendererState) :
    (sendCommand a p st).released = st.released := by
  unfold sendCommand
  split <;> rfl

theorem sendCommand_isLoaded (a : String) (p : Params) (st : RendererState) :
    (sendCommand a p st).isLoaded = st.isLoaded := by
  unfold sendCommand
  split <;> rfl

theorem sendCommand_not_ready (a : String) (p : Params) (st : RendererState)
    (h : st.isLoaded = false) :
    sendCommand a p st =
      { st with
          sent := st.sent ++ [{ action := a, params := p, source := "text-labs" }],
          pendingMessages := st.pendingMessages ++
            [{ action := a, params := p, source := "text-labs" }] } := by
  simp [sendCommand, h]

theorem sendCommand_ready (a : String) (p : Params) (st : RendererState)
    (h : st.isLoaded = true) :
    sendCommand a p st =
      { st with
          sent := st.sent ++ [{ action := a, params := p, source := "text-labs" }],
          dispatched := st.dispatched ++
            [{ action := a, params := p, source := "text-labs" }] } := by
  simp [sendCommand, h]

theorem processPendingGo_drain (pending : List Message) :
    ∀ st : RendererState, st.isLoaded = true → st.pendingMessages = pending →
    processPendingGo pending.length st =
      { st with pendingMessages := [],
                dispatched := st.dispatched ++ pending.map resend,
                sent := st.sent ++ pending.map resend } := by
  induction pending with
  | nil =>
    intro st hl hp
    cases st
    simp_all [processPendingGo]
  | cons m rest ih =>
    intro st hl hp
    obtain ⟨el, il, pm, dis, snt, rel⟩ := st
    dsimp only at hl hp
    subst hl hp
    have h1 : processPendingGo (m :: rest).length
        (⟨el, true, m :: rest, dis, snt, rel⟩ : RendererState) =
        processPendingGo rest.length
          (⟨el, true, rest, dis ++ [resend m], snt ++ [resend m], rel⟩ :
            RendererState) := by
      show processPendingGo (rest.length + 1) _ = _
      rw [processPendingGo]
      simp [sendCommand, resend]
    rw [h1, ih ⟨el, true, rest, dis ++ [resend m], snt ++ [resend m], rel⟩ rfl rfl]
    simp [List.append_assoc]

theorem markReady_eq (st : RendererState) :
    markReady st =
      { st with isLoaded := true,
                pendingMessages := [],
                dispatched := st.dispatched ++ st.pendingMessages.map resend,
                sent := st.sent ++ st.pendingMessages.map resend } := by
  have h := processPendingGo_drain st.pendingMessages { st with isLoaded := true } rfl rfl
  unfold markReady processPendingMessages
  exact h

theorem map_resend_eq_self (l : List Message)
    (h : ∀ m ∈ l, m.source = "text-labs") : l.map resend = l := by
  induction l with
  | nil => rfl
  | cons m rest ih =>
    have hm : m.source = "text-labs" := h m (by simp)
    have hr : resend m = m := by
      cases m
      simp_all [resend]
    simp only [List.map_cons, hr]
    rw [ih (fun x hx => h x (by simp [hx]))]

theorem map_resend_mkMsg (cmds : List (String × Params)) :
    (cmds.map mkMsg).map resend = cmds.map mkMsg := by
  induction cmds with
  | nil => rfl
  | cons c rest ih => simp [ih, resend, mkMsg]

theorem sendAll_not_ready (cmds : List (String × Params)) :
    ∀ st : RendererState, st.isLoaded = false →
    sendAll cmds st =
      { st with pendingMessages := st.pendingMessages ++ cmds.map mkMsg,
                sent := st.sent ++ cmds.map mkMsg } := by
  induction cmds with
  | nil =>
    intro st h
    cases st
    simp [sendAll]
  | cons c rest ih =>
    intro st h
    obtain ⟨el, il, pm, dis, snt, rel⟩ := st
    dsimp only at h
    subst h
    show sendAll rest (sendCommand c.1 c.2 _) = _
    rw [sendCommand_not_ready c.1 c.2 _ rfl, ih _ rfl]
    simp [mkMsg, List.append_assoc]

/-! ## Helper lemmas about substrings and joined fragments -/

theorem prefixDropSep {l a b : List Char} {c : Char} (hc : c ∉ l)
    (h : l <+: a ++ c :: b) : l <+: a := by
  induction l generalizing a with
  | nil => exact List.nil_prefix
  | cons x xs ih =>
    cases a with
    | nil =>
      obtain ⟨t, ht⟩ := h
      rw [List.nil_append, List.cons_append] at ht
      injection ht with h1 h2
      exact absurd h1 (fun hh => hc (hh ▸ List.mem_cons_self x xs))
    | cons y ys =>
      obtain ⟨t, ht⟩ := h
      rw [List.cons_append, List.cons_append] at ht
      injection ht with h1 h2
      subst h1
      have hxs : xs <+: ys ++ c :: b := ⟨t, h2⟩
      exact List.cons_prefix_cons.2
        ⟨rfl, ih (fun hm => hc (List.mem_cons_of_mem _ hm)) hxs⟩

theorem infixSplitSep {l b : List Char} {c : Char} (hne : l ≠ []) (hc : c ∉ l) :
    ∀ a : List Char, l <:+: a ++ c :: b → l <:+: a ∨ l <:+: b := by
  intro a
  induction a with
  | nil =>
    intro h
    rw [List.nil_append] at h
    rcases List.infix_cons_iff.1 h with hpre | hinf
    · obtain ⟨t, ht⟩ := hpre
      cases l with
      | nil => exact absurd rfl hne
      | cons x xs =>
        rw [List.cons_append] at ht
        injection ht with h1 h2
        exact absurd h1 (fun hh => hc (hh ▸ List.mem_cons_self x xs))
    · exact Or.inr hinf
  | cons y ys ih =>
    intro h
    rw [List.cons_append] at h
    rcases List.infix_cons_iff.1 h with hpre | hinf
    · rw [← List.cons_append] at hpre
      exact Or.inl (prefixDropSep hc hpre).isInfix
    · rcases ih hinf with h1 | h2
      · exact Or.inl (h1.trans ⟨[y], [], by simp⟩)
      · exact Or.inr h2

theorem noInfixSep {l a b : List Char} {c : Char} (hne : l ≠ []) (hc : c ∉ l)
    (ha : ¬ l <:+: a) (hb : ¬ l <:+: b) : ¬ l <:+: a ++ c :: b :=
  fun h => (infixSplitSep hne hc a h).elim ha hb

theorem noInfixJoinLines (pat : List Char) (hne : pat ≠ [])
    (hnl : ('\n' : Char) ∉ pat) (scripts : List String)
    (hs : ∀ s ∈ scripts, ¬ pat <:+: s.data) :
    ¬ pat <:+: (joinLines scripts).data := by
  induction scripts with
  | nil =>
    intro h
    exact hne (List.eq_nil_of_infix_nil (by simpa [joinLines] using h))
  | cons s rest ih =>
    cases rest with
    | nil =>
      simpa [joinLines] using hs s (by simp)
    | cons s2 r2 =>
      have hdata : (joinLines (s :: s2 :: r2)).data =
          s.data ++ '\n' :: (joinLines (s2 :: r2)).data := by
        show ((s ++ "\n") ++ joinLines (s2 :: r2)).data = _
        rw [String.data_append, String.data_append]
        simp
      rw [hdata]
      exact noInfixSep hne hnl (hs s (by simp))
        (ih (fun t ht => hs t (by simp [ht])))

theorem strContains_false_iff (s pat : String) :
    strContains s pat = false ↔ ¬ pat.data <:+: s.data := by
  simp [strContains]

/-! ## Helper lemmas about the element registry -/

theorem updateFirstContent_absent (elementId html : String) (l : List Element)
    (h : ∀ e ∈ l, e.id ≠ elementId) :
    updateFirstContent elementId html l = l := by
  induction l with
  | nil => rfl
  | cons e rest ih =>
    have he : e.id ≠ elementId := h e (by simp)
    simp only [updateFirstContent, if_neg he]
    rw [ih (fun x hx => h x (by simp [hx]))]

theorem deleteElement_elements (elementId : String) (st : RendererState) :
    (deleteElement elementId st).elements =
      st.elements.filter (fun e => e.id != elementId) := by
  show (sendCommand "deleteElement" _ st).elements.filter _ = _
  rw [sendCommand_elements]

/-! ## Claim theorems -/

/-- Claim C1: while the channel is NOT_READY, every `sendCommand` call
appends exactly one pending command and dispatches nothing; the readiness
transition then dispatches every queued command exactly once, in the
original submission order, and leaves the pending queue empty. -/
theorem send_queue_flush_fifo (st : RendererState)
    (cmds : List (String × Params)) (a : String) (p : Params)
    (hnr : st.isLoaded = false)
    (hsrc : ∀ m ∈ st.pendingMessages, m.source = "text-labs") :
    (sendCommand a p st).pendingMessages =
      st.pendingMessages ++ [{ action := a, params := p, source := "text-labs" }] ∧
    (sendCommand a p st).dispatched = st.dispatched ∧
    (sendAll cmds st).pendingMessages = st.pendingMessages ++ cmds.map mkMsg ∧
    (sendAll cmds st).dispatched = st.dispatched ∧
    (markReady (sendAll cmds st)).dispatched =
      st.dispatched ++ st.pendingMessages ++ cmds.map mkMsg ∧
    (markReady (sendAll cmds st)).pendingMessages = [] := by
  have hsend := sendCommand_not_ready a p st hnr
  have hall := sendAll_not_ready cmds st hnr
  refine ⟨by rw [hsend], by rw [hsend], by rw [hall], by rw [hall], ?_, ?_⟩
  · rw [hall, markReady_eq]
    show st.dispatched ++ (st.pendingMessages ++ cmds.map mkMsg).map resend = _
    rw [List.map_append, map_resend_eq_self _ hsrc, map_resend_mkMsg]
    exact (List.append_assoc _ _ _).symm
  · rw [hall, markReady_eq]

/-- Claim C1 witness: a concrete run of two queued commands flushed by the
readiness transition. -/
theorem send_queue_flush_fifo_inst :
    (markReady (sendAll
        [("insertTextBox", [("elementId", JsValue.str "el_1")]),
         ("deleteElement", [])]
        (⟨[], false, [], [], [], []⟩ : RendererState))).dispatched =
      [{ action := "insertTextBox", params := [("elementId", JsValue.str "el_1")],
         source := "text-labs" },
       { action := "deleteElement", params := [], source := "text-labs" }] ∧
    (markReady (sendAll
        [("insertTextBox", [("elementId", JsValue.str "el_1")]),
         ("deleteElement", [])]
        (⟨[], false, [], [], [], []⟩ : RendererState))).pendingMessages = [] := by
  have h := send_queue_flush_fifo (⟨[], false, [], [], [], []⟩ : RendererState)
    [("insertTextBox", [("elementId", JsValue.str "el_1")]), ("deleteElement", [])]
    "toggleEditMode" [] rfl (by intro m hm; simp at hm)
  exact ⟨by simpa [mkMsg] using h.2.2.2.2.1, h.2.2.2.2.2⟩

/-- Claim C2: on any allocator request failure (network error or non-2xx
status), `getAutoPosition` returns the deterministic default position
`4/(4+height)`, `2/(2+width)` instead of raising. -/
theorem getAutoPosition_fallback_default (outcome : FetchOutcome)
    (elementId elementType : String) (width height : Nat)
    (hfail : ∀ r c, outcome ≠ FetchOutcome.success r c) :
    getAutoPosition outcome elementId elementType width height =
      { gridRow := "4/" ++ Nat.repr (4 + height),
        gridColumn := "2/" ++ Nat.repr (2 + width) } := by
  cases outcome with
  | success r c => exact absurd rfl (hfail r c)
  | httpError s => rfl
  | networkError => rfl

/-- Claim C2 witness: width 10, height 6 gives row "4/10", column "2/12",
for both failure modes. -/
theorem getAutoPosition_fallback_default_inst :
    getAutoPosition FetchOutcome.networkError "el_1" "TEXT_BOX" 10 6 =
      { gridRow := "4/10", gridColumn := "2/12" } ∧
    getAutoPosition (FetchOutcome.httpError 500) "el_1" "TEXT_BOX" 10 6 =
      { gridRow := "4/10", gridColumn := "2/12" } := by
  constructor
  · exact (getAutoPosition_fallback_default FetchOutcome.networkError
      "el_1" "TEXT_BOX" 10 6
      (fun r c h => FetchOutcome.noConfusion h)).trans (by decide)
  · exact (getAutoPosition_fallback_default (FetchOutcome.httpError 500)
      "el_1" "TEXT_BOX" 10 6
      (fun r c h => FetchOutcome.noConfusion h)).trans (by decide)

/-- Claim C7: a second readiness flush, with no intervening NOT_READY
sends, dispatches nothing: the dispatched and sent logs are unchanged and
the queue stays empty. -/
theorem markReady_second_flush_dispatches_nothing (st : RendererState) :
    (markReady (markReady st)).dispatched = (markReady st).dispatched ∧
    (markReady (markReady st)).sent = (markReady st).sent ∧
    (markReady st).pendingMessages = [] ∧
    (markReady (markReady st)).pendingMessages = [] := by
  rw [markReady_eq st, markReady_eq]
  simp

/-- Claim C3 counterexample: with one queued command, the timeout path of
`loadPresentation` resolves and sets the readiness flag, but the queued
command is not dispatched and remains pending: the timeout fallback does
not flush the pending queue, contradicting the claim that every success
path performs the full readiness transition. -/
theorem loadPresentation_timeout_leaves_queue :
    (loadPresentation LoadEvent.timeout
        (⟨[], false,
          [{ action := "insertTextBox", params := [], source := "text-labs" }],
          [], [], []⟩ : RendererState)).fst = LoadOutcome.resolved ∧
    (loadPresentation LoadEvent.timeout
        (⟨[], false,
          [{ action := "insertTextBox", params := [], source := "text-labs" }],
          [], [], []⟩ : RendererState)).snd.isLoaded = true ∧
    (loadPresentation LoadEvent.timeout
        (⟨[], false,
          [{ action := "insertTextBox", params := [], source := "text-labs" }],
          [], [], []⟩ : RendererState)).snd.pendingMessages =
      [{ action := "insertTextBox", params := [], source := "text-labs" }] ∧
    (loadPresentation LoadEvent.timeout
        (⟨[], false,
          [{ action := "insertTextBox", params := [], source := "text-labs" }],
          [], [], []⟩ : RendererState)).snd.dispatched = [] := by
  decide

/-- Claim C3 amended: `loadPresentation` rejects exactly on an explicit
load error; the timeout path resolves successfully and transitions the
channel to READY but leaves the pending queue untouched; only the `onload`
success path performs the full readiness transition, which flushes every
queued command and empties the queue. -/
theorem loadPresentation_outcome_characterization (st : RendererState)
    (ev : LoadEvent) :
    ((loadPresentation ev st).fst = LoadOutcome.rejected ↔
      ev = LoadEvent.loadError) ∧
    (loadPresentation LoadEvent.timeout st).snd = { st with isLoaded := true } ∧
    (loadPresentation LoadEvent.loaded st).snd = markReady st ∧
    (markReady st).pendingMessages = [] ∧
    (markReady st).dispatched =
      st.dispatched ++ st.pendingMessages.map resend := by
  refine ⟨?_, rfl, rfl, ?_, ?_⟩
  · cases ev <;> simp [loadPresentation]
  · rw [markReady_eq]
  · rw [markReady_eq]

/-- Claim C4 counterexample: an `insertElement` call with no explicit
position and no auto-position request uses the kind-specific default
position `4/18`, `2/32`, yet the single enqueued command still carries
`skipAutoSize = true`: auto-sizing is suppressed although no position was
explicitly computed for the element. -/
theorem insertElement_default_position_still_skips_autosize :
    (insertElement FetchOutcome.networkError 0 "<p>x</p>" none
        { elementId := none, useAutoPosition := false, positionWidth := none,
          positionHeight := none, elementType := none }
        (⟨[], false, [], [], [], []⟩ : RendererState)).snd.sent.map
      (fun m => (m.action, List.lookup "skipAutoSize" m.params,
        List.lookup "gridRow" m.params, List.lookup "gridColumn" m.params)) =
      [("insertTextBox", some (JsValue.bool true), some (JsValue.str "4/18"),
        some (JsValue.str "2/32"))] := by
  decide

/-- Claim C4 amended: every `insertTextBox` command enqueued by the current
`insertElement` carries `draggable = true`, `resizable = true` and
`skipAutoSize = true` unconditionally — whether the position was explicit,
allocator-computed, or the kind-specific default; in the earlier revision
the suppression flag was set exactly when an explicit position argument was
passed. -/
theorem insert_command_interaction_flags (fetch : FetchOutcome) (now : Nat)
    (html : String) (position : Option GridPos) (options : InsertOptions)
    (st : RendererState) (now2 : Nat) (html2 : String)
    (position2 : Option GridPos) (st2 : RendererState) :
    (∃ m : Message,
      (insertElement fetch now html position options st).snd.sent =
        st.sent ++ [m] ∧
      m.action = "insertTextBox" ∧
      List.lookup "draggable" m.params = some (JsValue.bool true) ∧
      List.lookup "resizable" m.params = some (JsValue.bool true) ∧
      List.lookup "skipAutoSize" m.params = some (JsValue.bool true)) ∧
    (∃ m : Message,
      (legacyInsertElement now2 html2 position2 st2).snd.sent =
        st2.sent ++ [m] ∧
      m.action = "insertTextBox" ∧
      List.lookup "draggable" m.params = some (JsValue.bool true) ∧
      List.lookup "resizable" m.params = some (JsValue.bool true) ∧
      List.lookup "skipAutoSize" m.params =
        some (JsValue.bool position2.isSome)) := by
  constructor
  · exact ⟨_, sendCommand_sent _ _ st, rfl, rfl, rfl, rfl⟩
  · exact ⟨_, sendCommand_sent _ _ st2, rfl, rfl, rfl, rfl⟩

/-- Claim C6: removing a present id deletes exactly the elements carrying
that id, keeps every other element unchanged and in order, sends exactly
one `deleteElement` command carrying the id, and attempts exactly one
release notification for it. -/
theorem deleteElement_removal_completeness (st : RendererState)
    (elementId : String)
    (hmem : elementId ∈ (getElements st).map Element.id) :
    (∀ e ∈ getElements (deleteElement elementId st), e.id ≠ elementId) ∧
    (deleteElement elementId st).elements =
      st.elements.filter (fun e => e.id != elementId) ∧
    (deleteElement elementId st).sent = st.sent ++
      [{ action := "deleteElement",
         params := [("elementId", JsValue.str elementId)],
         source := "text-labs" }] ∧
    (deleteElement elementId st).released = st.released ++ [elementId] := by
  refine ⟨?_, deleteElement_elements elementId st, ?_, ?_⟩
  · intro e he
    rw [getElements, deleteElement_elements] at he
    simpa using (List.mem_filter.1 he).2
  · exact sendCommand_sent _ _ st
  · show (sendCommand "deleteElement" _ st).released ++ [elementId] = _
    rw [sendCommand_released]

/-- Claim C6 witness: removing a present element from a concrete
two-element registry. -/
theorem deleteElement_removal_completeness_inst :
    (deleteElement "el_1"
        (⟨[{ id := "el_1", type := none, html := "<p>a</p>",
             position := { gridRow := "4/18", gridColumn := "2/32" } },
           { id := "el_2", type := none, html := "<p>b</p>",
             position := { gridRow := "4/18", gridColumn := "2/32" } }],
          true, [], [], [], []⟩ : RendererState)).elements =
      [{ id := "el_2", type := none, html := "<p>b</p>",
         position := { gridRow := "4/18", gridColumn := "2/32" } }] ∧
    (deleteElement "el_1"
        (⟨[{ id := "el_1", type := none, html := "<p>a</p>",
             position := { gridRow := "4/18", gridColumn := "2/32" } },
           { id := "el_2", type := none, html := "<p>b</p>",
             position := { gridRow := "4/18", gridColumn := "2/32" } }],
          true, [], [], [], []⟩ : RendererState)).released = ["el_1"] := by
  have h := deleteElement_removal_completeness
    (⟨[{ id := "el_1", type := none, html := "<p>a</p>",
         position := { gridRow := "4/18", gridColumn := "2/32" } },
       { id := "el_2", type := none, html := "<p>b</p>",
         position := { gridRow := "4/18", gridColumn := "2/32" } }],
      true, [], [], [], []⟩ : RendererState) "el_1" (by decide)
  exact ⟨h.2.1.trans (by decide), h.2.2.2⟩

/-- Claim C8: `updateElementContent` always sends exactly one
`updateTextBoxContent` command carrying the id and content, whether or not
the id is tracked locally; when the id is absent the element list is left
completely unchanged (and so are the release log and readiness flag). -/
theorem updateElementContent_send_and_frame (st : RendererState)
    (elementId html : String) :
    (updateElementContent elementId html st).sent = st.sent ++
      [{ action := "updateTextBoxContent",
         params := [("elementId", JsValue.str elementId),
                    ("content", JsValue.str html)],
         source := "text-labs" }] ∧
    ((∀ e ∈ st.elements, e.id ≠ elementId) →
      (updateElementContent elementId html st).elements = st.elements) ∧
    (updateElementContent elementId html st).released = st.released ∧
    (updateElementContent elementId html st).isLoaded = st.isLoaded := by
  refine ⟨sendCommand_sent _ _ st, ?_, sendCommand_released _ _ st,
    sendCommand_isLoaded _ _ st⟩
  intro h
  show updateFirstContent elementId html
    (sendCommand "updateTextBoxContent" _ st).elements = _
  rw [sendCommand_elements]
  exact updateFirstContent_absent _ _ _ h

/-- Claim C8 witness: updating an id absent from a concrete one-element
registry sends the command and leaves the registry unchanged. -/
theorem updateElementContent_send_and_frame_inst :
    (updateElementContent "el_9" "<p>new</p>"
        (⟨[{ id := "el_1", type := none, html := "<p>a</p>",
             position := { gridRow := "4/18", gridColumn := "2/32" } }],
          true, [], [], [], []⟩ : RendererState)).elements =
      [{ id := "el_1", type := none, html := "<p>a</p>",
         position := { gridRow := "4/18", gridColumn := "2/32" } }] ∧
    (updateElementContent "el_9" "<p>new</p>"
        (⟨[{ id := "el_1", type := none, html := "<p>a</p>",
             position := { gridRow := "4/18", gridColumn := "2/32" } }],
          true, [], [], [], []⟩ : RendererState)).sent =
      [{ action := "updateTextBoxContent",
         params := [("elementId", JsValue.str "el_9"),
                    ("content", JsValue.str "<p>new</p>")],
         source := "text-labs" }] := by
  have h := updateElementContent_send_and_frame
    (⟨[{ id := "el_1", type := none, html := "<p>a</p>",
         position := { gridRow := "4/18", gridColumn := "2/32" } }],
      true, [], [], [], []⟩ : RendererState) "el_9" "<p>new</p>"
  exact ⟨h.2.1 (by decide), h.1⟩

/-- Claim C10: removal is total and idempotent on the local element set:
for an id absent from the Registry, `deleteElement` leaves the element
list exactly unchanged while still sending the delete command and
attempting the release notification, and applying it twice yields the same
local element set as applying it once. -/
theorem deleteElement_absent_frame_and_idempotent (st : RendererState)
    (elementId : String) (habs : ∀ e ∈ st.elements, e.id ≠ elementId) :
    (deleteElement elementId st).elements = st.elements ∧
    (deleteElement elementId st).sent = st.sent ++
      [{ action := "deleteElement",
         params := [("elementId", JsValue.str elementId)],
         source := "text-labs" }] ∧
    (deleteElement elementId st).released = st.released ++ [elementId] ∧
    (∀ st2 : RendererState,
      (deleteElement elementId (deleteElement elementId st2)).elements =
        (deleteElement elementId st2).elements) := by
  refine ⟨?_, sendCommand_sent _ _ st, ?_, ?_⟩
  · rw [deleteElement_elements]
    exact List.filter_eq_self.2 (fun e he => by simpa using habs e he)
  · show (sendCommand "deleteElement" _ st).released ++ [elementId] = _
    rw [sendCommand_released]
  · intro st2
    rw [deleteElement_elements, deleteElement_elements]
    exact List.filter_eq_self.2 (fun e he => (List.mem_filter.1 he).2)

/-- Claim C10 witness: deleting an absent id from a concrete one-element
registry changes nothing locally while the command and release still go
out. -/
theorem deleteElement_absent_frame_and_idempotent_inst :
    (deleteElement "el_9"
        (⟨[{ id := "el_1", type := none, html := "<p>a</p>",
             position := { gridRow := "4/18", gridColumn := "2/32" } }],
          true, [], [], [], []⟩ : RendererState)).elements =
      [{ id := "el_1", type := none, html := "<p>a</p>",
         position := { gridRow := "4/18", gridColumn := "2/32" } }] ∧
    (deleteElement "el_9"
        (⟨[{ id := "el_1", type := none, html := "<p>a</p>",
             position := { gridRow := "4/18", gridColumn := "2/32" } }],
          true, [], [], [], []⟩ : RendererState)).released = ["el_9"] := by
  have h := deleteElement_absent_frame_and_idempotent
    (⟨[{ id := "el_1", type := none, html := "<p>a</p>",
         position := { gridRow := "4/18", gridColumn := "2/32" } }],
      true, [], [], [], []⟩ : RendererState) "el_9" (by decide)
  exact ⟨h.1, h.2.2.1⟩

/-- Claim C5: given a complete HTML document built around head scripts and
a body markup M (and a parser that parses it back), `extractBodyContent`
returns the head script tags in their original order followed by M, and no
`<html>`, `<head>` or `<body>` wrapper tag opener occurs in the result
provided none occurs inside the scripts or M; an input without the
document marker is returned unchanged. -/
theorem extractBodyContent_document_fragment
    (parse : String → ParsedDocument) (scripts : List String) (M : String)
    (hparse : parse (docString scripts M) =
      { headScripts := scripts, bodyInner := M })
    (hclean : ∀ pat ∈ wrapperPats,
      (∀ s ∈ scripts, strContains s pat = false) ∧
        strContains M pat = false) :
    extractBodyContent parse (docString scripts M) =
      joinLines scripts ++ "\n" ++ M ∧
    (∀ pat ∈ wrapperPats,
      strContains (joinLines scripts ++ "\n" ++ M) pat = false) ∧
    (∀ s : String, looksLikeDocument s = false →
      extractBodyContent parse s = s) := by
  have hpre : ("<!DOCTYPE" : String).data <+: (docString scripts M).data := by
    have h1 : ("<!DOCTYPE" : String).data <+:
        ("<!DOCTYPE html><html><head>" : String).data ++
          ((String.join scripts).data ++ (("</head><body>" : String).data ++
            (M.data ++ ("</body></html>" : String).data))) :=
      (by decide : ("<!DOCTYPE" : String).data <+:
        ("<!DOCTYPE html><html><head>" : String).data).trans
        (List.prefix_append _ _)
    simp only [docString, String.data_append, List.append_assoc]
    exact h1
  have hdoc : looksLikeDocument (docString scripts M) = true := by
    have hc : strContains (docString scripts M) "<!DOCTYPE" = true := by
      simp only [strContains, decide_eq_true_eq]
      exact hpre.isInfix
    simp [looksLikeDocument, hc]
  refine ⟨by simp [extractBodyContent, hdoc, hparse], ?_, ?_⟩
  · intro pat hpat
    have hcl := hclean pat hpat
    have hsP : ∀ s ∈ scripts, ¬ pat.data <:+: s.data :=
      fun s h => (strContains_false_iff s pat).1 (hcl.1 s h)
    have hMP : ¬ pat.data <:+: M.data := (strContains_false_iff M pat).1 hcl.2
    have hne : pat.data ≠ [] := by
      simp only [wrapperPats, List.mem_cons, List.not_mem_nil, or_false] at hpat
      rcases hpat with rfl | rfl | rfl <;> decide
    have hnl : ('\n' : Char) ∉ pat.data := by
      simp only [wrapperPats, List.mem_cons, List.not_mem_nil, or_false] at hpat
      rcases hpat with rfl | rfl | rfl <;> decide
    have hjoin := noInfixJoinLines pat.data hne hnl scripts hsP
    have hdata : (joinLines scripts ++ "\n" ++ M).data =
        (joinLines scripts).data ++ '\n' :: M.data := by
      rw [String.data_append, String.data_append]
      simp
    rw [strContains_false_iff, hdata]
    exact noInfixSep hne hnl hjoin hMP
  · intro s h
    simp [extractBodyContent, h]

/-- Claim C5 witness: a concrete document with two head scripts and body
markup, and a concrete fragment input. -/
theorem extractBodyContent_document_fragment_inst :
    extractBodyContent
        (fun _ => { headScripts := ["<script src=a.js></script>",
                                    "<script src=b.js></script>"],
                    bodyInner := "<p>M</p>" })
        (docString ["<script src=a.js></script>", "<script src=b.js></script>"]
          "<p>M</p>") =
      "<script src=a.js></script>\n<script src=b.js></script>\n<p>M</p>" ∧
    strContains
      "<script src=a.js></script>\n<script src=b.js></script>\n<p>M</p>"
      "<html" = false ∧
    extractBodyContent
        (fun _ => { headScripts := ["<script src=a.js></script>",
                                    "<script src=b.js></script>"],
                    bodyInner := "<p>M</p>" })
        "<div>plain fragment</div>" = "<div>plain fragment</div>" := by
  have h := extractBodyContent_document_fragment
    (fun _ => { headScripts := ["<script src=a.js></script>",
                                "<script src=b.js></script>"],
                bodyInner := "<p>M</p>" })
    ["<script src=a.js></script>", "<script src=b.js></script>"] "<p>M</p>"
    rfl (by decide)
  exact ⟨h.1, h.2.1 "<html" (by decide),
    h.2.2 "<div>plain fragment</div>" (by decide)⟩

/-- Claim C9 counterexample: `viewerReady` is a recognized external inbound
message, and handling it mutates core state: the readiness flag flips from
NOT_READY to READY and the pending command queue is flushed — contradicting
the claim that no recognized external message mutates the element set, the
pending queue or the readiness flag. -/
theorem handleInbound_viewerReady_mutates_state :
    (handleInboundMessage
        (some { source := some "layout-service", action := some "viewerReady",
                success := some true, elementId := none, error := none,
                position := none })
        (⟨[], false,
          [{ action := "insertTextBox", params := [], source := "text-labs" }],
          [], [], []⟩ : RendererState)).isLoaded = true ∧
    (handleInboundMessage
        (some { source := some "layout-service", action := some "viewerReady",
                success := some true, elementId := none, error := none,
                position := none })
        (⟨[], false,
          [{ action := "insertTextBox", params := [], source := "text-labs" }],
          [], [], []⟩ : RendererState)).pendingMessages = [] ∧
    (handleInboundMessage
        (some { source := some "layout-service", action := some "viewerReady",
                success := some true, elementId := none, error := none,
                position := none })
        (⟨[], false,
          [{ action := "insertTextBox", params := [], source := "text-labs" }],
          [], [], []⟩ : RendererState)).dispatched =
      [{ action := "insertTextBox", params := [], source := "text-labs" }] := by
  decide

/-- Claim C9 amended: the inbound handler ignores absent data, self-sent
echoes (source marker `text-labs`) and unrecognized actions, and the
recognized acknowledgement messages (`insertTextBox`, `insertChart`,
`deleteElement`, `elementSelected`, `elementMoved`) leave the whole state
unchanged; the recognized `viewerReady` message, however, performs the
readiness transition (sets the flag and flushes the pending queue). -/
theorem handleInbound_frame_conditions (st : RendererState)
    (d : InboundData) :
    handleInboundMessage none st = st ∧
    (d.source = some "text-labs" → handleInboundMessage (some d) st = st) ∧
    (d.action = none → handleInboundMessage (some d) st = st) ∧
    (∀ a, d.action = some a →
      a ∈ (["insertTextBox", "insertChart", "deleteElement",
            "elementSelected", "elementMoved"] : List String) →
      handleInboundMessage (some d) st = st) ∧
    (d.source ≠ some "text-labs" → d.action = some "viewerReady" →
      handleInboundMessage (some d) st = markReady st ∧
      (handleInboundMessage (some d) st).isLoaded = true ∧
      (handleInboundMessage (some d) st).pendingMessages = []) := by
  refine ⟨rfl, ?_, ?_, ?_, ?_⟩
  · intro h
    simp [handleInboundMessage, h]
  · intro h
    by_cases hsrc : d.source = some "text-labs"
    · simp [handleInboundMessage, hsrc]
    · simp [handleInboundMessage, hsrc, h]
  · intro a ha hmem
    by_cases hsrc : d.source = some "text-labs"
    · simp [handleInboundMessage, hsrc]
    · fin_cases hmem <;> simp [handleInboundMessage, hsrc, ha]
  · intro hsrc hact
    have heq : handleInboundMessage (some d) st = markReady st := by
      simp [handleInboundMessage, hsrc, hact, markReady]
    refine ⟨heq, ?_, ?_⟩
    · rw [heq, markReady_eq]
    · rw [heq, markReady_eq]

/-- Claim C9 witness: a concrete external `insertChart` acknowledgement
leaves a concrete state unchanged, and a concrete self-echo is ignored. -/
theorem handleInbound_frame_conditions_inst :
    handleInboundMessage
        (some { source := some "layout-service", action := some "insertChart",
                success := some true, elementId := some "el_9", error := none,
                position := none })
        (⟨[], true, [], [], [], []⟩ : RendererState) =
      (⟨[], true, [], [], [], []⟩ : RendererState) ∧
    handleInboundMessage
        (some { source := some "text-labs", action := some "deleteElement",
                success := some true, elementId := some "el_9", error := none,
                position := none })
        (⟨[], true, [], [], [], []⟩ : RendererState) =
      (⟨[], true, [], [], [], []⟩ : RendererState) := by
  constructor
  · exact (handleInbound_frame_conditions
      (⟨[], true, [], [], [], []⟩ : RendererState)
      { source := some "layout-service", action := some "insertChart",
        success := some true, elementId := some "el_9", error := none,
        position := none }).2.2.2.1 "insertChart" rfl (by decide)
  · exact (handleInbound_frame_conditions
      (⟨[], true, [], [], [], []⟩ : RendererState)
      { source := some "text-labs", action := some "deleteElement",
        success := some true, elementId := some "el_9", error := none,
        position := none }).2.1 rfl
